import Mathlib

/-!
Verification of the question-sourcing pipeline of the quiz application.

The definitions below are a shallow embedding of the Python sources:
  - `src/core/ai_generator.py`   (class `AIGenerator`)
  - `src/core/user_history.py`   (class `UserHistory`)
  - `src/core/category_question_manager.py` (class `CategoryQuestionManager`)
  - `src/core/question_manager.py` (class `QuestionManager`)

Python dictionaries keyed by strings are embedded as association lists
(`List (String × _)`); Python `random.sample` / `random.shuffle` /
`random.choice` calls are embedded as function parameters (an arbitrary
sampling/shuffling function, or an arbitrary index reduced modulo the
population size), so that theorems quantify over every possible outcome of
the randomness.  File I/O is embedded as an `Except String Unit` oracle
describing the outcome of the underlying write.
-/

/-- Wire/storage shape of one question record (`ai_generator.py`, JSON shape
with fields `question`, `options`, `correct_answer`, `category`,
`difficulty`). -/
structure Question where
  question : String
  options : List String
  correct_answer : String
  category : String
  difficulty : String
deriving DecidableEq, Repr, Inhabited

/-- Helper to build a `Question` record. -/
def mkQ (t : String) (os : List String) (a c d : String) : Question :=
  ⟨t, os, a, c, d⟩

/-! ### Character classes used by the regular-expression heuristics

Python's `re` character classes restricted to the ASCII texts appearing in
this code base: `\s` (whitespace), `\w` (word characters), `\d` (digits). -/

/-- Python `str.lower()` for the ASCII texts of this code base, defined
over the character list so that it evaluates inside the kernel. -/
def pyLower (s : String) : String :=
  ⟨s.data.map Char.toLower⟩

/-- Python whitespace (`\s` and `.split()` / `.strip()` separators) for the
ASCII texts of this code base. -/
def isPySpace (c : Char) : Bool :=
  c = ' ' || c = '\t' || c = '\n' || c = '\r' || c = '\x0b' || c = '\x0c'

/-- Python `\w` (word character) for ASCII texts. -/
def isWordChar (c : Char) : Bool :=
  c.isAlpha || c.isDigit || c = '_'

/-! ### A miniature matcher for the fixed patterns of `_filter_sample_questions`

Every pattern in `ai_generator.py` is a plain concatenation of literals,
`\s+`, `\w+`, `\d+` and one optional character class `[abc]?`, so the
pattern language below suffices to embed `re.search` for exactly those
patterns. -/

/-- One atom of the restricted regular-expression language. -/
inductive RAtom where
  | lit (s : List Char)
  | ws
  | word
  | digits
  | optChar (cs : List Char)
deriving Repr

/-- Fuel-driven worker for `matchFrom`.  Every recursive call either
consumes an input character or removes pattern material, so
`(total pattern size + 1) * (input length + 1)` steps always suffice;
the fuel only makes the recursion structural. -/
def matchFromF : Nat → List RAtom → List Char → Bool
  | 0, _, _ => false
  | _ + 1, [], _ => true
  | f + 1, .lit [] :: ps, cs => matchFromF f ps cs
  | f + 1, .lit (c :: s) :: ps, cs =>
    match cs with
    | [] => false
    | d :: rest => c = d && matchFromF f (.lit s :: ps) rest
  | f + 1, .ws :: ps, cs =>
    match cs with
    | [] => false
    | d :: rest => isPySpace d && (matchFromF f ps rest || matchFromF f (.ws :: ps) rest)
  | f + 1, .word :: ps, cs =>
    match cs with
    | [] => false
    | d :: rest => isWordChar d && (matchFromF f ps rest || matchFromF f (.word :: ps) rest)
  | f + 1, .digits :: ps, cs =>
    match cs with
    | [] => false
    | d :: rest => d.isDigit && (matchFromF f ps rest || matchFromF f (.digits :: ps) rest)
  | f + 1, .optChar chars :: ps, cs =>
    matchFromF f ps cs ||
      (match cs with
       | [] => false
       | d :: rest => chars.contains d && matchFromF f ps rest)

/-- Size of the pattern material of one atom (for the fuel bound). -/
def atomSize : RAtom → Nat
  | .lit s => s.length + 1
  | _ => 1

/-- Does the atom sequence `ps` match some prefix of `cs`?  (`\s+`, `\w+`
and `\d+` are one-or-more with full backtracking, `[..]?` is zero-or-one.) -/
def matchFrom (ps : List RAtom) (cs : List Char) : Bool :=
  matchFromF (((ps.map atomSize).sum + 1) * (cs.length + 1) + 1) ps cs

/-- Search the pattern at every start position (Python `re.search`). -/
def searchAux (p : List RAtom) : List Char → Bool
  | [] => matchFrom p []
  | c :: rest => matchFrom p (c :: rest) || searchAux p rest

/-- Implements `re.search(pattern, text)` for the restricted pattern language. -/
def reSearch (p : List RAtom) (s : String) : Bool :=
  searchAux p s.data

/-- A literal atom from a string. -/
def lit (s : String) : RAtom :=
  .lit s.data

/-- The `sample_patterns` list of `_filter_sample_questions`
(`ai_generator.py` lines 1143-1161), in source order. -/
def samplePatterns : List (List RAtom) :=
  [ [lit (r"sample"), .ws, .word, .ws, lit (r"question")],
    [lit (r"sample"), .ws, lit (r"question")],
    [.word, .ws, lit (r"sample"), .ws, lit (r"question")],
    [.word, .ws, lit (r"easy"), .ws, lit (r"question")],
    [.word, .ws, lit (r"medium"), .ws, lit (r"question")],
    [.word, .ws, lit (r"hard"), .ws, lit (r"question")],
    [lit (r"easy"), .ws, lit (r"question"), .ws, lit (r"#"), .digits],
    [lit (r"medium"), .ws, lit (r"question"), .ws, lit (r"#"), .digits],
    [lit (r"hard"), .ws, lit (r"question"), .ws, lit (r"#"), .digits],
    [lit (r"correct"), .ws, lit (r"answer"), .ws, lit (r"#"), .digits],
    [lit (r"wrong"), .ws, lit (r"answer"), .ws, .optChar [ 'a', 'b', 'c' ], .ws, lit (r"#"), .digits],
    [lit (r"incorrect"), .ws, lit (r"answer"), .ws, .optChar [ 'a', 'b', 'c' ], .ws, lit (r"#"), .digits],
    [lit (r"treasure"), .ws, lit (r"hunt")],
    [lit (r"technology"), .ws, lit (r"sample")],
    [lit (r"technology"), .ws, lit (r"easy"), .ws, lit (r"question")],
    [lit (r"sample")],
    [lit (r"#"), .digits] ]

/-- The `category_patterns` dictionary of `_filter_sample_questions`
(`ai_generator.py` lines 1164-1169).  Note the keys are capitalized in the
source while they are compared against a lower-cased category. -/
def categoryPatterns : List (String × List (List RAtom)) :=
  [ (r"Movies",
      [ [lit (r"sample"), .ws, lit (r"movies")],
        [lit (r"movies"), .ws, lit (r"sample")],
        [lit (r"movie"), .ws, lit (r"sample")],
        [lit (r"sample"), .ws, lit (r"movie")] ]),
    (r"Technology",
      [ [lit (r"technology"), .ws, lit (r"sample")],
        [lit (r"sample"), .ws, lit (r"technology")],
        [lit (r"tech"), .ws, lit (r"sample")],
        [lit (r"sample"), .ws, lit (r"tech")] ]),
    (r"Science",
      [ [lit (r"science"), .ws, lit (r"sample")],
        [lit (r"sample"), .ws, lit (r"science")] ]),
    (r"Literacy",
      [ [lit (r"literacy"), .ws, lit (r"sample")],
        [lit (r"sample"), .ws, lit (r"literacy")] ]) ]

/-- Counts the whitespace-separated tokens of a text
(Python `text.split()` length); the `Bool` tracks being inside a word. -/
def countWordsAux : Bool → List Char → Nat
  | _, [] => 0
  | inWord, c :: rest =>
    if isPySpace c then countWordsAux false rest
    else (if inWord then 0 else 1) + countWordsAux true rest

/-- Number of whitespace-separated tokens (`len(text.split())`). -/
def countWords (l : List Char) : Nat :=
  countWordsAux false l

/-- Python `text.endswith('?')`. -/
def endsWithQM (s : String) : Bool :=
  s.data.getLast? == some '?'

/-- Python `re.search(r'\?', text)`: the text contains a question mark. -/
def containsQM (s : String) : Bool :=
  s.data.contains '?'

/-- The per-record classification of `_filter_sample_questions`
(`ai_generator.py` lines 1171-1215): a record is a sample iff it matches a
sample pattern, a category-specific pattern, has an option matching a sample
pattern, is shorter than 4 tokens, or carries no question mark. -/
def isSample (q : Question) : Bool :=
  let text := pyLower q.question
  let cat := pyLower q.category
  samplePatterns.any (fun p => reSearch p text)
  || (match categoryPatterns.find? (fun e => decide (e.1 = cat)) with
      | some e => e.2.any (fun p => reSearch p text)
      | none => false)
  || q.options.any (fun o => samplePatterns.any (fun p => reSearch p (pyLower o)))
  || decide (countWords text.data < 4)
  || (!(endsWithQM text) && !(containsQM text))

/-- Embeds `AIGenerator._filter_sample_questions`: keep, in order, exactly the
records not classified as samples. -/
def filterSampleQuestions (qs : List Question) : List Question :=
  qs.filter (fun q => !(isSample q))

/-! ### The hard-coded fallback bank (`AIGenerator._create_fallback_questions`)

The repository ships no `data/fallback_questions.json`, so
`_load_fallback_questions` takes the hard-coded branch; every question
literal below is transcribed from `ai_generator.py` lines 131-919. -/

/-- The hand-written question literals of `_create_fallback_questions`,
before the generic filler loop (`ai_generator.py` lines 136-919). -/
def baseFallback (category difficulty : String) : List Question :=
  if category = r"Science" then
    if difficulty = r"easy" then
      [ mkQ (r"What is the chemical symbol for water?") [ r"H2O", r"CO2", r"NaCl", r"O2" ] (r"H2O") (r"Science") (r"easy"),
        mkQ (r"Which planet is known as the Red Planet?") [ r"Mars", r"Venus", r"Jupiter", r"Mercury" ] (r"Mars") (r"Science") (r"easy"),
        mkQ (r"What is the closest star to Earth?") [ r"Sun", r"Proxima Centauri", r"Alpha Centauri", r"Sirius" ] (r"Sun") (r"Science") (r"easy") ]
    else if difficulty = r"medium" then
      [ mkQ (r"Which element has the atomic number 79?") [ r"Gold", r"Silver", r"Platinum", r"Copper" ] (r"Gold") (r"Science") (r"medium"),
        mkQ (r"What is the process called where plants make their own food using sunlight?") [ r"Photosynthesis", r"Respiration", r"Digestion", r"Fermentation" ] (r"Photosynthesis") (r"Science") (r"medium") ]
    else if difficulty = r"hard" then
      [ mkQ (r"What is the half-life of Carbon-14?") [ r"5,730 years", r"1,600 years", r"10,000 years", r"3,200 years" ] (r"5,730 years") (r"Science") (r"hard"),
        mkQ (r"Which subatomic particle has a positive charge?") [ r"Proton", r"Neutron", r"Electron", r"Positron" ] (r"Proton") (r"Science") (r"hard") ]
    else []
  else if category = r"History" then
    if difficulty = r"easy" then
      [ mkQ (r"Who was the first President of the United States?") [ r"George Washington", r"Thomas Jefferson", r"Abraham Lincoln", r"John Adams" ] (r"George Washington") (r"History") (r"easy"),
        mkQ (r"In what year did World War II end?") [ r"1945", r"1939", r"1942", r"1944" ] (r"1945") (r"History") (r"easy") ]
    else []
  else if category = r"Geography" then
    if difficulty = r"easy" then
      [ mkQ (r"What is the capital of France?") [ r"Paris", r"London", r"Berlin", r"Madrid" ] (r"Paris") (r"Geography") (r"easy"),
        mkQ (r"Which ocean is the largest?") [ r"Pacific Ocean", r"Atlantic Ocean", r"Indian Ocean", r"Arctic Ocean" ] (r"Pacific Ocean") (r"Geography") (r"easy"),
        mkQ (r"What is the capital of Japan?") [ r"Tokyo", r"Kyoto", r"Osaka", r"Hiroshima" ] (r"Tokyo") (r"Geography") (r"easy"),
        mkQ (r"Which is the longest river in the world?") [ r"Nile", r"Amazon", r"Mississippi", r"Yangtze" ] (r"Nile") (r"Geography") (r"easy"),
        mkQ (r"Which country has the largest population in the world?") [ r"China", r"India", r"United States", r"Russia" ] (r"China") (r"Geography") (r"easy"),
        mkQ (r"On which continent is the Sahara Desert located?") [ r"Africa", r"Asia", r"Australia", r"South America" ] (r"Africa") (r"Geography") (r"easy"),
        mkQ (r"What is the name of the tallest mountain in the world?") [ r"Mount Everest", r"K2", r"Mount Kilimanjaro", r"Mount Fuji" ] (r"Mount Everest") (r"Geography") (r"easy"),
        mkQ (r"Which country is home to the Great Barrier Reef?") [ r"Australia", r"Mexico", r"Thailand", r"Brazil" ] (r"Australia") (r"Geography") (r"easy"),
        mkQ (r"What is the capital of Canada?") [ r"Ottawa", r"Toronto", r"Vancouver", r"Montreal" ] (r"Ottawa") (r"Geography") (r"easy"),
        mkQ (r"Which of these countries is NOT in Europe?") [ r"Egypt", r"Spain", r"Italy", r"Germany" ] (r"Egypt") (r"Geography") (r"easy") ]
    else if difficulty = r"medium" then
      [ mkQ (r"Which country has the most pyramids?") [ r"Sudan", r"Egypt", r"Mexico", r"Peru" ] (r"Sudan") (r"Geography") (r"medium"),
        mkQ (r"What is the capital of Australia?") [ r"Canberra", r"Sydney", r"Melbourne", r"Perth" ] (r"Canberra") (r"Geography") (r"medium"),
        mkQ (r"Which of these countries is landlocked?") [ r"Bolivia", r"Peru", r"Ecuador", r"Chile" ] (r"Bolivia") (r"Geography") (r"medium"),
        mkQ (r"Which African country was formerly known as Abyssinia?") [ r"Ethiopia", r"Nigeria", r"Kenya", r"Morocco" ] (r"Ethiopia") (r"Geography") (r"medium"),
        mkQ (r"The Strait of Gibraltar connects the Atlantic Ocean to which sea?") [ r"Mediterranean Sea", r"Red Sea", r"Black Sea", r"Baltic Sea" ] (r"Mediterranean Sea") (r"Geography") (r"medium"),
        mkQ (r"What is the largest desert in the world?") [ r"Antarctic Desert", r"Sahara Desert", r"Arabian Desert", r"Gobi Desert" ] (r"Antarctic Desert") (r"Geography") (r"medium"),
        mkQ (r"Which country has the most natural lakes?") [ r"Canada", r"United States", r"Russia", r"Finland" ] (r"Canada") (r"Geography") (r"medium"),
        mkQ (r"What is the capital of New Zealand?") [ r"Wellington", r"Auckland", r"Christchurch", r"Queenstown" ] (r"Wellington") (r"Geography") (r"medium"),
        mkQ (r"Which mountain range separates Europe from Asia?") [ r"Ural Mountains", r"Alps", r"Caucasus Mountains", r"Carpathian Mountains" ] (r"Ural Mountains") (r"Geography") (r"medium"),
        mkQ (r"Which river flows through the Grand Canyon?") [ r"Colorado River", r"Missouri River", r"Rio Grande", r"Mississippi River" ] (r"Colorado River") (r"Geography") (r"medium") ]
    else if difficulty = r"hard" then
      [ mkQ (r"Which South American country has the largest land area?") [ r"Brazil", r"Argentina", r"Peru", r"Colombia" ] (r"Brazil") (r"Geography") (r"hard"),
        mkQ (r"What is the world's oldest continuously inhabited city?") [ r"Damascus", r"Jerusalem", r"Athens", r"Rome" ] (r"Damascus") (r"Geography") (r"hard"),
        mkQ (r"Which country is the world's largest producer of coffee?") [ r"Brazil", r"Colombia", r"Vietnam", r"Ethiopia" ] (r"Brazil") (r"Geography") (r"hard"),
        mkQ (r"In which country would you find the city of Timbuktu?") [ r"Mali", r"Niger", r"Chad", r"Sudan" ] (r"Mali") (r"Geography") (r"hard"),
        mkQ (r"Which is the only country to border both the Atlantic and Indian Oceans?") [ r"South Africa", r"Australia", r"Brazil", r"India" ] (r"South Africa") (r"Geography") (r"hard"),
        mkQ (r"What is the capital of Mongolia?") [ r"Ulaanbaatar", r"Astana", r"Bishkek", r"Tashkent" ] (r"Ulaanbaatar") (r"Geography") (r"hard"),
        mkQ (r"Which country has the most time zones?") [ r"France", r"Russia", r"United States", r"Australia" ] (r"France") (r"Geography") (r"hard"),
        mkQ (r"What is the lowest point on Earth's continental crust?") [ r"Dead Sea", r"Caspian Sea", r"Death Valley", r"Lake Eyre" ] (r"Dead Sea") (r"Geography") (r"hard"),
        mkQ (r"Which country has the largest number of active volcanoes?") [ r"Indonesia", r"Japan", r"Philippines", r"United States" ] (r"Indonesia") (r"Geography") (r"hard"),
        mkQ (r"Which African country was never colonized by Europeans?") [ r"Ethiopia", r"South Africa", r"Kenya", r"Nigeria" ] (r"Ethiopia") (r"Geography") (r"hard") ]
    else []
  else if category = r"Literature" then
    if difficulty = r"easy" then
      [ mkQ (r"Who wrote 'Romeo and Juliet'?") [ r"William Shakespeare", r"Charles Dickens", r"Jane Austen", r"Mark Twain" ] (r"William Shakespeare") (r"Literature") (r"easy"),
        mkQ (r"Who wrote 'Harry Potter'?") [ r"J.K. Rowling", r"Stephen King", r"George R.R. Martin", r"Tolkien" ] (r"J.K. Rowling") (r"Literature") (r"easy"),
        mkQ (r"Who is the author of 'Pride and Prejudice'?") [ r"Jane Austen", r"Charlotte Brontë", r"Emily Brontë", r"Virginia Woolf" ] (r"Jane Austen") (r"Literature") (r"easy"),
        mkQ (r"What is the name of the main character in 'The Great Gatsby'?") [ r"Jay Gatsby", r"Nick Carraway", r"Tom Buchanan", r"Daisy Buchanan" ] (r"Jay Gatsby") (r"Literature") (r"easy"),
        mkQ (r"Who wrote 'The Adventures of Tom Sawyer'?") [ r"Mark Twain", r"Charles Dickens", r"Ernest Hemingway", r"F. Scott Fitzgerald" ] (r"Mark Twain") (r"Literature") (r"easy"),
        mkQ (r"Which novel begins with the line 'It was the best of times, it was the worst of times'?") [ r"A Tale of Two Cities", r"Great Expectations", r"Oliver Twist", r"David Copperfield" ] (r"A Tale of Two Cities") (r"Literature") (r"easy"),
        mkQ (r"Who wrote 'To Kill a Mockingbird'?") [ r"Harper Lee", r"J.D. Salinger", r"John Steinbeck", r"F. Scott Fitzgerald" ] (r"Harper Lee") (r"Literature") (r"easy"),
        mkQ (r"What is the name of the hobbit in 'The Lord of the Rings'?") [ r"Frodo Baggins", r"Bilbo Baggins", r"Samwise Gamgee", r"Gollum" ] (r"Frodo Baggins") (r"Literature") (r"easy"),
        mkQ (r"In which century did William Shakespeare live?") [ r"16th-17th century", r"15th-16th century", r"17th-18th century", r"14th-15th century" ] (r"16th-17th century") (r"Literature") (r"easy"),
        mkQ (r"Who wrote 'The Catcher in the Rye'?") [ r"J.D. Salinger", r"F. Scott Fitzgerald", r"Ernest Hemingway", r"Mark Twain" ] (r"J.D. Salinger") (r"Literature") (r"easy") ]
    else if difficulty = r"medium" then
      [ mkQ (r"Who wrote 'One Hundred Years of Solitude'?") [ r"Gabriel García Márquez", r"Isabel Allende", r"Jorge Luis Borges", r"Pablo Neruda" ] (r"Gabriel García Márquez") (r"Literature") (r"medium"),
        mkQ (r"Which novel features the character Holden Caulfield?") [ r"The Catcher in the Rye", r"The Great Gatsby", r"To Kill a Mockingbird", r"Lord of the Flies" ] (r"The Catcher in the Rye") (r"Literature") (r"medium"),
        mkQ (r"Who wrote 'Crime and Punishment'?") [ r"Fyodor Dostoevsky", r"Leo Tolstoy", r"Anton Chekhov", r"Nikolai Gogol" ] (r"Fyodor Dostoevsky") (r"Literature") (r"medium"),
        mkQ (r"Which Shakespeare play features the character Ophelia?") [ r"Hamlet", r"Macbeth", r"Romeo and Juliet", r"King Lear" ] (r"Hamlet") (r"Literature") (r"medium"),
        mkQ (r"Who wrote 'The Old Man and the Sea'?") [ r"Ernest Hemingway", r"F. Scott Fitzgerald", r"John Steinbeck", r"William Faulkner" ] (r"Ernest Hemingway") (r"Literature") (r"medium"),
        mkQ (r"Which poet wrote 'The Road Not Taken'?") [ r"Robert Frost", r"Walt Whitman", r"Emily Dickinson", r"T.S. Eliot" ] (r"Robert Frost") (r"Literature") (r"medium"),
        mkQ (r"What was Charles Dickens' final completed novel?") [ r"Our Mutual Friend", r"Great Expectations", r"A Tale of Two Cities", r"David Copperfield" ] (r"Our Mutual Friend") (r"Literature") (r"medium"),
        mkQ (r"Which novel begins with the line 'Call me Ishmael'?") [ r"Moby-Dick", r"The Great Gatsby", r"The Old Man and the Sea", r"To Kill a Mockingbird" ] (r"Moby-Dick") (r"Literature") (r"medium"),
        mkQ (r"Who wrote the poetry collection 'Leaves of Grass'?") [ r"Walt Whitman", r"Emily Dickinson", r"Robert Frost", r"T.S. Eliot" ] (r"Walt Whitman") (r"Literature") (r"medium"),
        mkQ (r"Which novel features the character Jay Gatsby?") [ r"The Great Gatsby", r"The Catcher in the Rye", r"To Kill a Mockingbird", r"Moby-Dick" ] (r"The Great Gatsby") (r"Literature") (r"medium") ]
    else if difficulty = r"hard" then
      [ mkQ (r"Who wrote 'Ulysses'?") [ r"James Joyce", r"Virginia Woolf", r"Marcel Proust", r"D.H. Lawrence" ] (r"James Joyce") (r"Literature") (r"hard"),
        mkQ (r"Which author created the character Inspector Morse?") [ r"Colin Dexter", r"Agatha Christie", r"Arthur Conan Doyle", r"P.D. James" ] (r"Colin Dexter") (r"Literature") (r"hard"),
        mkQ (r"Which novel by Albert Camus tells the story of a man named Meursault who kills an Arab?") [ r"The Stranger", r"The Plague", r"The Fall", r"The Myth of Sisyphus" ] (r"The Stranger") (r"Literature") (r"hard"),
        mkQ (r"Who wrote 'The Brothers Karamazov'?") [ r"Fyodor Dostoevsky", r"Leo Tolstoy", r"Anton Chekhov", r"Ivan Turgenev" ] (r"Fyodor Dostoevsky") (r"Literature") (r"hard"),
        mkQ (r"Which author won the Nobel Prize in Literature in 1954?") [ r"Ernest Hemingway", r"William Faulkner", r"John Steinbeck", r"T.S. Eliot" ] (r"Ernest Hemingway") (r"Literature") (r"hard"),
        mkQ (r"Which of these works is NOT by Shakespeare?") [ r"Doctor Faustus", r"The Tempest", r"King Lear", r"Twelfth Night" ] (r"Doctor Faustus") (r"Literature") (r"hard"),
        mkQ (r"Who wrote 'The Sound and the Fury'?") [ r"William Faulkner", r"Ernest Hemingway", r"F. Scott Fitzgerald", r"John Steinbeck" ] (r"William Faulkner") (r"Literature") (r"hard"),
        mkQ (r"What was the original title of Jane Austen's 'Pride and Prejudice'?") [ r"First Impressions", r"Social Standings", r"Elizabeth and Darcy", r"A Lady's Reputation" ] (r"First Impressions") (r"Literature") (r"hard"),
        mkQ (r"Which Russian author wrote 'War and Peace'?") [ r"Leo Tolstoy", r"Fyodor Dostoevsky", r"Anton Chekhov", r"Nikolai Gogol" ] (r"Leo Tolstoy") (r"Literature") (r"hard"),
        mkQ (r"Which literary movement was James Joyce associated with?") [ r"Modernism", r"Romanticism", r"Naturalism", r"Realism" ] (r"Modernism") (r"Literature") (r"hard") ]
    else []
  else if category = r"Movies" then
    if difficulty = r"easy" then
      [ mkQ (r"Which movie won the Oscar for Best Picture in 2020?") [ r"Parasite", r"1917", r"Joker", r"Once Upon a Time in Hollywood" ] (r"Parasite") (r"Movies") (r"easy"),
        mkQ (r"Who directed the movie 'Titanic'?") [ r"James Cameron", r"Steven Spielberg", r"Christopher Nolan", r"Martin Scorsese" ] (r"James Cameron") (r"Movies") (r"easy"),
        mkQ (r"Which actor played Iron Man in the Marvel Cinematic Universe?") [ r"Robert Downey Jr.", r"Chris Evans", r"Chris Hemsworth", r"Mark Ruffalo" ] (r"Robert Downey Jr.") (r"Movies") (r"easy"),
        mkQ (r"Which animated movie features a character named Simba?") [ r"The Lion King", r"Finding Nemo", r"Toy Story", r"Shrek" ] (r"The Lion King") (r"Movies") (r"easy"),
        mkQ (r"Who played Jack in the movie 'Titanic'?") [ r"Leonardo DiCaprio", r"Brad Pitt", r"Tom Cruise", r"Johnny Depp" ] (r"Leonardo DiCaprio") (r"Movies") (r"easy"),
        mkQ (r"Which of these movies is NOT directed by Christopher Nolan?") [ r"Avatar", r"Inception", r"Interstellar", r"The Dark Knight" ] (r"Avatar") (r"Movies") (r"easy"),
        mkQ (r"What was the first movie in the 'Harry Potter' series?") [ r"Harry Potter and the Philosopher's Stone", r"Harry Potter and the Chamber of Secrets", r"Harry Potter and the Prisoner of Azkaban", r"Harry Potter and the Goblet of Fire" ] (r"Harry Potter and the Philosopher's Stone") (r"Movies") (r"easy"),
        mkQ (r"Which actor played Neo in 'The Matrix'?") [ r"Keanu Reeves", r"Tom Cruise", r"Brad Pitt", r"Will Smith" ] (r"Keanu Reeves") (r"Movies") (r"easy"),
        mkQ (r"Which movie features a character named Forrest Gump?") [ r"Forrest Gump", r"The Green Mile", r"Cast Away", r"Saving Private Ryan" ] (r"Forrest Gump") (r"Movies") (r"easy"),
        mkQ (r"Which of these is NOT a Pixar movie?") [ r"Shrek", r"Toy Story", r"Finding Nemo", r"Up" ] (r"Shrek") (r"Movies") (r"easy") ]
    else if difficulty = r"medium" then
      [ mkQ (r"Who directed 'Pulp Fiction'?") [ r"Quentin Tarantino", r"Martin Scorsese", r"Steven Spielberg", r"David Fincher" ] (r"Quentin Tarantino") (r"Movies") (r"medium"),
        mkQ (r"Which actor won an Oscar for his role in 'The Revenant'?") [ r"Leonardo DiCaprio", r"Brad Pitt", r"Matthew McConaughey", r"Eddie Redmayne" ] (r"Leonardo DiCaprio") (r"Movies") (r"medium"),
        mkQ (r"Which movie features the character Hannibal Lecter?") [ r"The Silence of the Lambs", r"Seven", r"Psycho", r"American Psycho" ] (r"The Silence of the Lambs") (r"Movies") (r"medium"),
        mkQ (r"Who directed 'Schindler's List'?") [ r"Steven Spielberg", r"Martin Scorsese", r"Stanley Kubrick", r"Francis Ford Coppola" ] (r"Steven Spielberg") (r"Movies") (r"medium"),
        mkQ (r"Which movie won the most Oscars in history?") [ r"Titanic, The Lord of the Rings: The Return of the King, and Ben-Hur (tied)", r"Avatar", r"Gone with the Wind", r"The Godfather" ] (r"Titanic, The Lord of the Rings: The Return of the King, and Ben-Hur (tied)") (r"Movies") (r"medium"),
        mkQ (r"Which actress played Hermione Granger in the Harry Potter films?") [ r"Emma Watson", r"Emma Stone", r"Jennifer Lawrence", r"Emma Roberts" ] (r"Emma Watson") (r"Movies") (r"medium"),
        mkQ (r"In which year was the first Star Wars movie released?") [ r"1977", r"1980", r"1975", r"1983" ] (r"1977") (r"Movies") (r"medium"),
        mkQ (r"What is the highest-grossing animated film of all time (as of 2023)?") [ r"The Lion King (2019)", r"Frozen II", r"Super Mario Bros. Movie", r"Incredibles 2" ] (r"The Lion King (2019)") (r"Movies") (r"medium"),
        mkQ (r"Which film won the Academy Award for Best Picture in 2019?") [ r"Green Book", r"Roma", r"Black Panther", r"A Star Is Born" ] (r"Green Book") (r"Movies") (r"medium"),
        mkQ (r"Who directed 'Inception'?") [ r"Christopher Nolan", r"James Cameron", r"Steven Spielberg", r"Martin Scorsese" ] (r"Christopher Nolan") (r"Movies") (r"medium") ]
    else if difficulty = r"hard" then
      [ mkQ (r"Which actor has won the most Academy Awards for Best Actor?") [ r"Daniel Day-Lewis", r"Jack Nicholson", r"Marlon Brando", r"Tom Hanks" ] (r"Daniel Day-Lewis") (r"Movies") (r"hard"),
        mkQ (r"Who directed the 1963 film '8½'?") [ r"Federico Fellini", r"Ingmar Bergman", r"Akira Kurosawa", r"François Truffaut" ] (r"Federico Fellini") (r"Movies") (r"hard"),
        mkQ (r"Which movie was based on the novel 'Do Androids Dream of Electric Sheep?'") [ r"Blade Runner", r"Total Recall", r"The Matrix", r"Minority Report" ] (r"Blade Runner") (r"Movies") (r"hard"),
        mkQ (r"Which film won the Palme d'Or at the Cannes Film Festival in 1994?") [ r"Pulp Fiction", r"The Piano", r"Schindler's List", r"Three Colors: Red" ] (r"Pulp Fiction") (r"Movies") (r"hard"),
        mkQ (r"Who was the youngest person to win an Academy Award for Best Director?") [ r"Damien Chazelle", r"Orson Welles", r"Steven Spielberg", r"John Singleton" ] (r"Damien Chazelle") (r"Movies") (r"hard"),
        mkQ (r"Which film holds the record for most Academy Award nominations without winning any?") [ r"The Turning Point and The Color Purple (tied)", r"American Hustle", r"Gangs of New York", r"The Irishman" ] (r"The Turning Point and The Color Purple (tied)") (r"Movies") (r"hard"),
        mkQ (r"In the original 'King Kong' (1933), what was the name of the island where Kong was found?") [ r"Skull Island", r"Monster Island", r"Kong Island", r"Ape Island" ] (r"Skull Island") (r"Movies") (r"hard"),
        mkQ (r"Which actress has received the most Academy Award nominations without winning?") [ r"Glenn Close", r"Amy Adams", r"Deborah Kerr", r"Thelma Ritter" ] (r"Glenn Close") (r"Movies") (r"hard"),
        mkQ (r"Who was originally cast as Aragorn in 'The Lord of the Rings' before Viggo Mortensen?") [ r"Stuart Townsend", r"Russell Crowe", r"Nicolas Cage", r"Daniel Day-Lewis" ] (r"Stuart Townsend") (r"Movies") (r"hard"),
        mkQ (r"Which classic film features the line 'Rosebud'?") [ r"Citizen Kane", r"Casablanca", r"Gone with the Wind", r"It's a Wonderful Life" ] (r"Citizen Kane") (r"Movies") (r"hard") ]
    else []
  else if category = r"Sports" then
    if difficulty = r"easy" then
      [ mkQ (r"In which sport would you perform a slam dunk?") [ r"Basketball", r"Football", r"Tennis", r"Golf" ] (r"Basketball") (r"Sports") (r"easy") ]
    else []
  else if category = r"Technology" then
    if difficulty = r"easy" then
      [ mkQ (r"Who founded Microsoft?") [ r"Bill Gates", r"Steve Jobs", r"Mark Zuckerberg", r"Jeff Bezos" ] (r"Bill Gates") (r"Technology") (r"easy") ]
    else []
  else if category = r"Music" then
    if difficulty = r"easy" then
      [ mkQ (r"Which band performed the song 'Bohemian Rhapsody'?") [ r"Queen", r"The Beatles", r"Led Zeppelin", r"Rolling Stones" ] (r"Queen") (r"Music") (r"easy") ]
    else []
  else []

/-- One generic filler question (`ai_generator.py` lines 926-992); `k` is
`len(questions)` at the moment the filler is created. -/
def genericQuestion (category difficulty : String) (k : Nat) : Question :=
  if category = r"Science" then
    mkQ (r"What scientific discovery was made in the " ++ toString (k + 1) ++ r"0s that revolutionized the field?")
      [ r"Correct scientific theory", r"Incorrect scientific theory A", r"Incorrect scientific theory B", r"Incorrect scientific theory C" ]
      (r"Correct scientific theory") category difficulty
  else if category = r"History" then
    mkQ (r"Which historical figure was most influential in the " ++ toString (k + 1) ++ r"th century?")
      [ r"Correct historical figure", r"Incorrect historical figure A", r"Incorrect historical figure B", r"Incorrect historical figure C" ]
      (r"Correct historical figure") category difficulty
  else if category = r"Geography" then
    mkQ (r"Which geographical feature is most prominent in " ++ ([ r"Asia", r"Africa", r"Europe", r"North America" ].getD (k % 4) (r"")) ++ r"?")
      [ r"Correct geographical answer", r"Incorrect geographical answer A", r"Incorrect geographical answer B", r"Incorrect geographical answer C" ]
      (r"Correct geographical answer") category difficulty
  else if category = r"Literature" then
    mkQ (r"Which author made the biggest contribution to " ++ toString (k + 1) ++ r"th century literature?")
      [ r"Correct author", r"Incorrect author A", r"Incorrect author B", r"Incorrect author C" ]
      (r"Correct author") category difficulty
  else
    mkQ (r"Important question about " ++ category ++ r" (#" ++ toString (k + 1) ++ r")")
      [ r"Correct Answer", r"Incorrect Answer A", r"Incorrect Answer B", r"Incorrect Answer C" ]
      (r"Correct Answer") category difficulty

/-- The `while len(questions) < count` filler loop of
`_create_fallback_questions`; each pass appends exactly one generic
question, so `count` iterations of fuel always suffice. -/
def fillGenericLoop (category difficulty : String) (count : Nat) : Nat → List Question → List Question
  | 0, qs => qs
  | fuel + 1, qs =>
    if qs.length < count then
      fillGenericLoop category difficulty count fuel (qs ++ [genericQuestion category difficulty qs.length])
    else qs

/-- Embeds `AIGenerator._create_fallback_questions(category, difficulty, count)`. -/
def createFallbackQuestions (category difficulty : String) (count : Nat) : List Question :=
  fillGenericLoop category difficulty count count (baseFallback category difficulty)

/-- Lookup in a Python dict embedded as an association list
(`key in d` is `(dictFind d key).isSome`, `d[key]` its value). -/
def dictFind {α : Type} (d : List (String × α)) (k : String) : Option α :=
  (d.find? (fun e => decide (e.1 = k))).map (fun e => e.2)

/-- The category list of `_load_fallback_questions` (`ai_generator.py`
lines 89-92). -/
def fallbackCategories : List String :=
  [ r"Science", r"History", r"Geography", r"Literature", r"Movies", r"Sports", r"Technology", r"Music" ]

/-- Embeds `self.fallback_questions` as built by `_load_fallback_questions` when no
`data/fallback_questions.json` exists (the repository ships none): each
category maps to ten questions per difficulty. -/
def fallbackBank : List (String × List (String × List Question)) :=
  fallbackCategories.map (fun c =>
    (c, [ (r"easy", createFallbackQuestions c (r"easy") 10),
          (r"medium", createFallbackQuestions c (r"medium") 10),
          (r"hard", createFallbackQuestions c (r"hard") 10) ]))

/-- Embeds `self.geography_questions` as built by `_load_geography_questions` when
no `data/geography_questions.json` exists: the Geography entry of the
fallback bank. -/
def geographyQuestions : List (String × List Question) :=
  (dictFind fallbackBank (r"Geography")).getD
    [ (r"easy", []), (r"medium", []), (r"hard", []) ]

/-! ### `AIGenerator._generate_fallback_questions` (lines 1390-1419)

`random.choice(keys)` is embedded as `keys.getD (idx % keys.length)` for an
arbitrary index `idx`, which ranges over exactly the possible outcomes;
`random.sample(l, k)` is an arbitrary function parameter `sampleFn`. -/

/-- Embeds `AIGenerator._generate_fallback_questions(category, difficulty, n)`. -/
def generateFallbackQuestions (sampleFn : List Question → Nat → List Question)
    (catIdx diffIdx : Nat) (category difficulty : String) (n : Nat) : List Question :=
  let cat? : Option String :=
    if (dictFind fallbackBank category).isSome then some category
    else
      let cats := fallbackBank.map (fun e => e.1)
      if cats.isEmpty then none else some (cats.getD (catIdx % cats.length) category)
  match cat? with
  | none => createFallbackQuestions category difficulty n
  | some cat =>
    let sub := (dictFind fallbackBank cat).getD []
    let diff? : Option String :=
      if (dictFind sub difficulty).isSome then some difficulty
      else
        let ds := sub.map (fun e => e.1)
        if ds.isEmpty then none else some (ds.getD (diffIdx % ds.length) difficulty)
    match diff? with
    | none => createFallbackQuestions cat difficulty n
    | some diff =>
      let available := (dictFind sub diff).getD []
      if available.length ≤ n then available else sampleFn available n

/-! ### `AIGenerator._create_guaranteed_questions` (lines 1578-1821) -/

/-- The `guaranteed_questions` dictionary (lines 1592-1774). -/
def guaranteedTable : List (String × List (String × List Question)) :=
  [ (r"Science",
      [ (r"easy",
          [ mkQ (r"What is the largest planet in our solar system?") [ r"Jupiter", r"Saturn", r"Neptune", r"Earth" ] (r"Jupiter") (r"Science") (r"easy"),
            mkQ (r"What is the chemical formula for water?") [ r"H2O", r"CO2", r"O2", r"NaCl" ] (r"H2O") (r"Science") (r"easy") ]),
        (r"medium",
          [ mkQ (r"What is the atomic number of carbon?") [ r"6", r"12", r"14", r"8" ] (r"6") (r"Science") (r"medium") ]),
        (r"hard",
          [ mkQ (r"What is the half-life of Carbon-14?") [ r"5,730 years", r"1,600 years", r"10,000 years", r"3,200 years" ] (r"5,730 years") (r"Science") (r"hard") ]) ]),
    (r"History",
      [ (r"easy",
          [ mkQ (r"Who was the first President of the United States?") [ r"George Washington", r"Thomas Jefferson", r"Abraham Lincoln", r"John Adams" ] (r"George Washington") (r"History") (r"easy") ]),
        (r"medium",
          [ mkQ (r"In what year did World War II end?") [ r"1945", r"1939", r"1942", r"1944" ] (r"1945") (r"History") (r"medium") ]),
        (r"hard",
          [ mkQ (r"Which treaty ended the War of 1812?") [ r"Treaty of Ghent", r"Treaty of Paris", r"Treaty of Versailles", r"Treaty of Tordesillas" ] (r"Treaty of Ghent") (r"History") (r"hard") ]) ]),
    (r"Geography",
      [ (r"easy",
          [ mkQ (r"What is the capital of France?") [ r"Paris", r"London", r"Berlin", r"Madrid" ] (r"Paris") (r"Geography") (r"easy") ]),
        (r"medium",
          [ mkQ (r"Which river is the longest in the world?") [ r"Nile", r"Amazon", r"Mississippi", r"Yangtze" ] (r"Nile") (r"Geography") (r"medium") ]),
        (r"hard",
          [ mkQ (r"Which country has the most natural lakes?") [ r"Canada", r"United States", r"Russia", r"Finland" ] (r"Canada") (r"Geography") (r"hard") ]) ]),
    (r"Literature",
      [ (r"easy",
          [ mkQ (r"Who wrote 'Romeo and Juliet'?") [ r"William Shakespeare", r"Charles Dickens", r"Jane Austen", r"Mark Twain" ] (r"William Shakespeare") (r"Literature") (r"easy") ]),
        (r"medium",
          [ mkQ (r"Which novel begins with the line 'It was the best of times, it was the worst of times'?") [ r"A Tale of Two Cities", r"Great Expectations", r"Oliver Twist", r"David Copperfield" ] (r"A Tale of Two Cities") (r"Literature") (r"medium") ]),
        (r"hard",
          [ mkQ (r"Who wrote 'One Hundred Years of Solitude'?") [ r"Gabriel García Márquez", r"Jorge Luis Borges", r"Pablo Neruda", r"Isabel Allende" ] (r"Gabriel García Márquez") (r"Literature") (r"hard") ]) ]),
    (r"Movies",
      [ (r"easy",
          [ mkQ (r"Who directed the movie 'Titanic'?") [ r"James Cameron", r"Steven Spielberg", r"Christopher Nolan", r"Martin Scorsese" ] (r"James Cameron") (r"Movies") (r"easy") ]),
        (r"medium",
          [ mkQ (r"Which actor played Iron Man in the Marvel Cinematic Universe?") [ r"Robert Downey Jr.", r"Chris Evans", r"Chris Hemsworth", r"Mark Ruffalo" ] (r"Robert Downey Jr.") (r"Movies") (r"medium") ]),
        (r"hard",
          [ mkQ (r"Which film won the Academy Award for Best Picture in 1994?") [ r"Schindler's List", r"The Fugitive", r"The Piano", r"The Remains of the Day" ] (r"Schindler's List") (r"Movies") (r"hard") ]) ]),
    (r"Technology",
      [ (r"easy",
          [ mkQ (r"What does CPU stand for?") [ r"Central Processing Unit", r"Computer Personal Unit", r"Central Process Unit", r"Central Processor Unit" ] (r"Central Processing Unit") (r"Technology") (r"easy") ]),
        (r"medium",
          [ mkQ (r"In what year was the first iPhone released?") [ r"2007", r"2005", r"2009", r"2010" ] (r"2007") (r"Technology") (r"medium") ]),
        (r"hard",
          [ mkQ (r"Who is considered the father of modern computer science?") [ r"Alan Turing", r"Bill Gates", r"Steve Jobs", r"Tim Berners-Lee" ] (r"Alan Turing") (r"Technology") (r"hard") ]) ]) ]

/-- The `default_questions` list (lines 1777-1799); the records are built
with the requested category and difficulty already. -/
def defaultGuaranteed (category difficulty : String) : List Question :=
  [ mkQ (r"What is the capital of Japan?") [ r"Tokyo", r"Beijing", r"Seoul", r"Bangkok" ] (r"Tokyo") category difficulty,
    mkQ (r"Who painted the Mona Lisa?") [ r"Leonardo da Vinci", r"Pablo Picasso", r"Vincent van Gogh", r"Michelangelo" ] (r"Leonardo da Vinci") category difficulty,
    mkQ (r"What is the largest ocean on Earth?") [ r"Pacific Ocean", r"Atlantic Ocean", r"Indian Ocean", r"Arctic Ocean" ] (r"Pacific Ocean") category difficulty ]

/-- Embeds `AIGenerator._create_guaranteed_questions(category, difficulty, count)`:
take up to `count` table entries for the category/difficulty pair, then fill
the remainder by cycling the default questions with category and difficulty
overwritten (lines 1801-1821). -/
def createGuaranteedQuestions (category difficulty : String) (count : Nat) : List Question :=
  let base : List Question :=
    match dictFind guaranteedTable category with
    | some sub =>
      match dictFind sub difficulty with
      | some available => available.take (min count available.length)
      | none => []
    | none => []
  let needed := count - base.length
  let dflts := defaultGuaranteed category difficulty
  base ++ (List.range needed).map (fun i =>
    let q := dflts.getD (i % dflts.length) default
    { q with category := category, difficulty := difficulty })

/-! ### `AIGenerator.generate_questions` (lines 1224-1312)

The four accumulation stages followed by the filter, the refill stage and
the final truncation.  The generative-model result (Geography only), the
API result and the `random.sample` outcomes are oracle parameters. -/

/-- Stage 1 (lines 1236-1253): the local-model attempt, made only for
Geography when fallback mode is off and the model is ready; `aiR` is
whatever the bounded, exception-guarded `future.result` delivered (the
empty list on timeout or failure). -/
def stage1 (aiR : List Question) (useFb modelReady : Bool) (category : String) : List Question :=
  if category = r"Geography" then
    if useFb = false ∧ modelReady = true then aiR else []
  else []

/-- Stage 2 (lines 1256-1262): top up from the trivia API; `apiFetch` maps
the remaining deficit to the API result. -/
def stage2 (apiFetch : Nat → List Question) (n : Nat) (qs : List Question) : List Question :=
  if qs.length < n then qs ++ apiFetch (n - qs.length) else qs

/-- Stage 3 (lines 1265-1275): the Geography-only curated backup, sampling
from the geography bank after excluding records already accumulated. -/
def stage3 (sampleGeo : List Question → Nat → List Question)
    (category difficulty : String) (n : Nat) (qs : List Question) : List Question :=
  if category = r"Geography" ∧ qs.length < n then
    match dictFind geographyQuestions difficulty with
    | some available =>
      if available.isEmpty then qs
      else
        let af := available.filter (fun q => decide (q ∉ qs))
        if af.isEmpty then qs
        else qs ++ sampleGeo af (min (n - qs.length) af.length)
    | none => qs
  else qs

/-- Stage 4 (lines 1278-1282): top up from the general fallback bank. -/
def stage4 (sampleFb : List Question → Nat → List Question) (catIdx diffIdx : Nat)
    (category difficulty : String) (n : Nat) (qs : List Question) : List Question :=
  if qs.length < n then
    qs ++ generateFallbackQuestions sampleFb catIdx diffIdx category difficulty (n - qs.length)
  else qs

/-- Stages 1-4 composed: everything accumulated before filtering. -/
def accumulateStages (aiR : List Question) (apiFetch : Nat → List Question)
    (sampleGeo sampleFb : List Question → Nat → List Question) (catIdx diffIdx : Nat)
    (useFb modelReady : Bool) (category difficulty : String) (n : Nat) : List Question :=
  stage4 sampleFb catIdx diffIdx category difficulty n
    (stage3 sampleGeo category difficulty n
      (stage2 apiFetch n
        (stage1 aiR useFb modelReady category)))

/-- The post-filter refill (lines 1289-1309): if filtering dropped below
`n`, fetch three times the deficit from the fallback bank (through
`moreOf`), filter it, append up to the deficit, and cover any remaining
deficit with guaranteed questions. -/
def refillStage (category difficulty : String) (n : Nat)
    (filtered : List Question) (moreOf : Nat → List Question) : List Question :=
  if filtered.length < n then
    if (filtered ++ (moreOf (n - filtered.length)).take (n - filtered.length)).length < n then
      (filtered ++ (moreOf (n - filtered.length)).take (n - filtered.length))
        ++ createGuaranteedQuestions category difficulty
            (n - (filtered ++ (moreOf (n - filtered.length)).take (n - filtered.length)).length)
    else filtered ++ (moreOf (n - filtered.length)).take (n - filtered.length)
  else filtered

/-- Embeds `AIGenerator.generate_questions(category, difficulty, n)`: accumulate
from the sources, filter samples, refill, and truncate to exactly `n`
(line 1312). -/
def generateQuestions (aiR : List Question) (apiFetch : Nat → List Question)
    (sampleGeo sampleFb sampleFb2 : List Question → Nat → List Question)
    (catIdx diffIdx catIdx2 diffIdx2 : Nat) (useFb modelReady : Bool)
    (category difficulty : String) (n : Nat) : List Question :=
  (refillStage category difficulty n
    (filterSampleQuestions
      (accumulateStages aiR apiFetch sampleGeo sampleFb catIdx diffIdx useFb modelReady category difficulty n))
    (fun needed =>
      filterSampleQuestions
        (generateFallbackQuestions sampleFb2 catIdx2 diffIdx2 category difficulty (needed * 3)))).take n

/-! ### `AIGenerator._fetch_questions_from_api` (lines 1314-1388)

The network interaction is embedded as an `ApiOutcome` oracle; HTML-entity
decoding (`html.unescape`) is an uninterpreted string function and
`random.shuffle` an arbitrary per-result shuffling function.  The
surrounding `try`/`except` structure is embedded with `Except`: the two
`except` clauses turn any raised error into the empty list. -/

/-- One entry of the API's `results` array. -/
structure ApiResult where
  question : String
  correct_answer : String
  incorrect_answers : List String
deriving DecidableEq, Repr

/-- The observable outcome of the single bounded API request:
`netError` covers `URLError`/`HTTPError`/`JSONDecodeError`/`KeyError`
(a failed or malformed/undecodable response), `otherError` any other
exception, and `response` a decoded body with its `response_code` and
`results`. -/
inductive ApiOutcome where
  | netError
  | otherError
  | response (code : Nat) (results : List ApiResult)

/-- The `try` body of `_fetch_questions_from_api`: raise on request errors,
return converted records when `response_code == 0` and `results` is
non-empty, and the empty list otherwise. -/
def fetchApiBody (unescape : String → String) (shuffles : Nat → List String → List String)
    (category difficulty : String) (o : ApiOutcome) : Except String (List Question) :=
  match o with
  | .netError => .error (r"Error fetching questions from API")
  | .otherError => .error (r"Unexpected error fetching questions")
  | .response code results =>
    if code = 0 ∧ results ≠ [] then
      .ok ((results.enum).map (fun e =>
        mkQ (unescape e.2.question)
          (shuffles e.1 (unescape e.2.correct_answer :: e.2.incorrect_answers.map unescape))
          (unescape e.2.correct_answer) category difficulty))
    else
      .ok []

/-- Embeds `AIGenerator._fetch_questions_from_api(category, difficulty, n)`: the
`except` clauses catch every raised error and return the empty list, so the
call never raises to its caller. -/
def fetchQuestionsFromApi (unescape : String → String)
    (shuffles : Nat → List String → List String)
    (category difficulty : String) (_n : Nat) (o : ApiOutcome) : List Question :=
  match fetchApiBody unescape shuffles category difficulty o with
  | .ok l => l
  | .error _ => []

/-! ### `AIGenerator._generate_ai_questions` (lines 1421-1498)

Each of the three attempts is an oracle: either the generator raised, no
JSON array was found, the JSON was undecodable, or a list of raw parsed
objects was produced.  Raw objects may miss keys (`Option` fields).
`random.shuffle` is an indexed shuffling oracle; assigning
`q["options"][0]` on an empty list raises `IndexError`, which the outer
`except` catches, keeping the questions already accumulated and retrying. -/

/-- A question object parsed from the model's JSON, before validation
(each key may be absent). -/
structure RawQuestion where
  rquestion : Option String
  roptions : Option (List String)
  ranswer : Option String
  rcategory : Option String
  rdifficulty : Option String
deriving DecidableEq, Repr

/-- Checks `all(key in q for key in [...])` (line 1458). -/
def hasAllKeys (q : RawQuestion) : Bool :=
  q.rquestion.isSome && q.roptions.isSome && q.ranswer.isSome
    && q.rcategory.isSome && q.rdifficulty.isSome

/-- The `while len(q["options"]) < 4` padding loop (lines 1464-1465); each
pass appends one option, so 4 iterations of fuel always suffice. -/
def padOptionsLoop : Nat → List String → List String
  | 0, opts => opts
  | fuel + 1, opts =>
    if opts.length < 4 then
      padOptionsLoop fuel (opts ++ [ r"Option " ++ toString (opts.length + 1) ])
    else opts

/-- Pad the options with placeholders up to four entries. -/
def padOptions (opts : List String) : List String :=
  padOptionsLoop 4 opts

/-- The validation/repair loop over one attempt's parsed objects
(lines 1457-1470).  Returns the accumulated questions, the next shuffle
index and whether an `IndexError` was raised (empty `options` with a
`correct_answer` not contained in them). -/
def processGenerated (shuffles : Nat → List String → List String) :
    List RawQuestion → List Question → Nat → List Question × Nat × Bool
  | [], acc, k => (acc, k, false)
  | rq :: rest, acc, k =>
    if hasAllKeys rq then
      let opts := rq.roptions.getD []
      let ans := rq.ranswer.getD (r"")
      if ans ∈ opts then
        let q := mkQ (rq.rquestion.getD (r"")) (shuffles k (padOptions opts)) ans
          (rq.rcategory.getD (r"")) (rq.rdifficulty.getD (r""))
        processGenerated shuffles rest (acc ++ [q]) (k + 1)
      else
        match opts with
        | [] => (acc, k, true)
        | _ :: tl =>
          let q := mkQ (rq.rquestion.getD (r"")) (shuffles k (padOptions (ans :: tl))) ans
            (rq.rcategory.getD (r"")) (rq.rdifficulty.getD (r""))
          processGenerated shuffles rest (acc ++ [q]) (k + 1)
    else processGenerated shuffles rest acc k

/-- The observable outcome of one generation attempt. -/
inductive GenAttempt where
  | genFail
  | noJson
  | badJson
  | parsed (qs : List RawQuestion)

/-- The `for attempt in range(1, max_retries + 1)` loop (lines 1434-1496):
a parsed attempt processes its objects onto the running accumulator and
returns it when no exception occurred and it is non-empty; every other
outcome moves to the next attempt; after the last attempt the function
returns the empty list (line 1498). -/
def aiAttemptLoop (shuffles : Nat → List String → List String)
    (att : Nat → GenAttempt) : Nat → Nat → List Question → Nat → List Question
  | 0, _, _, _ => []
  | rem + 1, a, acc, k =>
    match att a with
    | .parsed rs =>
      let res := processGenerated shuffles rs acc k
      if res.2.2 then aiAttemptLoop shuffles att rem (a + 1) res.1 res.2.1
      else if res.1.isEmpty then aiAttemptLoop shuffles att rem (a + 1) res.1 res.2.1
      else res.1
    | _ => aiAttemptLoop shuffles att rem (a + 1) acc k

/-- Embeds `AIGenerator._generate_ai_questions`: empty when the model is not
ready, otherwise up to three attempts. -/
def aiGenerateQuestions (modelReady : Bool)
    (shuffles : Nat → List String → List String) (att : Nat → GenAttempt) : List Question :=
  if modelReady then aiAttemptLoop shuffles att 3 1 [] 0 else []

/-! ### `UserHistory` (`user_history.py`)

`self.seen_questions` is a dict from category to a set of normalized
question texts; the set is embedded as a duplicate-free insertion list. -/

/-- Python `str.strip()`. -/
def pyStrip (s : String) : String :=
  ⟨((s.data.dropWhile isPySpace).reverse.dropWhile isPySpace).reverse⟩

/-- Embeds `UserHistory._hash_question` (lines 106-117):
`question.get("question", "").strip().lower()`. -/
def hashQuestion (q : Question) : String :=
  pyLower (pyStrip q.question)

/-- Python `set.add`. -/
def setAdd (s : List String) (x : String) : List String :=
  if x ∈ s then s else s ++ [x]

/-- The `if category not in self.seen_questions` initialization of
`add_seen_questions` (lines 72-73). -/
def ensureCategory (seen : List (String × List String)) (category : String) :
    List (String × List String) :=
  if (dictFind seen category).isSome then seen else seen ++ [(category, [])]

/-- Embeds `UserHistory.add_seen_questions(category, questions)` (lines 64-81):
initialize the category, add every question's hash to its set (the
subsequent `save_history` call does not change the in-memory state). -/
def addSeenQuestions (seen : List (String × List String)) (category : String)
    (qs : List Question) : List (String × List String) :=
  (ensureCategory seen category).map (fun e =>
    if e.1 = category then (e.1, qs.foldl (fun s q => setAdd s (hashQuestion q)) e.2) else e)

/-- Embeds `UserHistory.filter_unseen_questions(category, questions)`
(lines 83-104): all questions when the category is unknown, otherwise those
whose hash is not in the seen-set. -/
def filterUnseenQuestions (seen : List (String × List String)) (category : String)
    (qs : List Question) : List Question :=
  match dictFind seen category with
  | none => qs
  | some s => qs.filter (fun q => !(decide (hashQuestion q ∈ s)))

/-! ### Persistence error handling

The write to disk is an oracle `w : Except String Unit` describing whether
the underlying `open`/`json.dump` raised.  Each save method wraps it in the
`try`/`except` structure of its source. -/

/-- Embeds `CategoryQuestionManager.save_questions`
(`category_question_manager.py` lines 55-69): on a write error, log it and
`raise` again. -/
def categorySaveQuestions (w : Except String Unit) : Except String Unit :=
  match w with
  | .ok _ => .ok ()
  | .error e => .error e

/-- Embeds `QuestionManager.save_questions` (`question_manager.py` lines 77-89):
on a write (or backup) error, log it and `raise` again. -/
def managerSaveQuestions (w : Except String Unit) : Except String Unit :=
  match w with
  | .ok _ => .ok ()
  | .error e => .error e

/-- Embeds `UserHistory.save_history` (`user_history.py` lines 45-62): the
`except` clause only logs the error — the method returns normally. -/
def historySaveHistory (w : Except String Unit) : Except String Unit :=
  match w with
  | .ok _ => .ok ()
  | .error _ => .ok ()

/-! ### `CategoryQuestionManager.add_questions` (lines 95-113)

`self.questions_by_difficulty` starts as the three-bucket dict built in
`__init__` (and is reset to it whenever loading fails); it is embedded as
an association list with the three difficulty keys. -/

/-- Appending one record to its bucket: lower-case the record's
`difficulty`, fall back to `medium` when the result is not a key of the
dict, and append to that bucket. -/
def addOneQuestion (bank : List (String × List Question)) (q : Question) :
    List (String × List Question) :=
  let d0 := pyLower q.difficulty
  let d := if (dictFind bank d0).isSome then d0 else r"medium"
  bank.map (fun e => if e.1 = d then (e.1, e.2 ++ [q]) else e)

/-- Embeds `CategoryQuestionManager.add_questions(questions)`: group every record
into its bucket, then persist through `save_questions`; the pair is the
updated in-memory bank and the outcome of the save. -/
def addQuestionsAndSave (bank : List (String × List Question)) (qs : List Question)
    (w : Except String Unit) : List (String × List Question) × Except String Unit :=
  (qs.foldl addOneQuestion bank, categorySaveQuestions w)

/-- A concrete three-token record for the C6 witness. -/
def tooShortQuestion : Question :=
  mkQ (r"Too short") [ r"A", r"B", r"C", r"D" ] (r"A") (r"Science") (r"easy")

/-- A parsed model record whose `correct_answer` is not among its
options (the repair case of C2). -/
def rawRepairExample : RawQuestion :=
  ⟨some (r"Which answer is the right one here?"),
    some [ r"A", r"B", r"C", r"D" ], some (r"X"), some (r"Science"), some (r"easy")⟩

/-- The Science/easy fallback bank: three hand-written questions plus seven
generic fillers. -/
def scienceEasyFallback : List Question :=
  createFallbackQuestions (r"Science") (r"easy") 10

/-! ## Helper lemmas -/

/-- Function `_create_guaranteed_questions` always returns exactly `count` records:
the table part never exceeds `count` and the default-cycling loop fills the
exact remainder. -/
theorem createGuaranteed_length (category difficulty : String) (count : Nat) :
    (createGuaranteedQuestions category difficulty count).length = count := by
  unfold createGuaranteedQuestions
  cases hfind : dictFind guaranteedTable category with
  | none => simp
  | some sub =>
    cases hfind2 : dictFind sub difficulty with
    | none => simp [hfind2]
    | some available =>
      simp [hfind2, List.length_take]

/-- After the refill stage the accumulated list has at least `n` records:
either filtering already left enough, or the guaranteed questions supply
the exact deficit. -/
theorem refill_length_ge (category difficulty : String) (n : Nat)
    (filtered : List Question) (moreOf : Nat → List Question) :
    n ≤ (refillStage category difficulty n filtered moreOf).length := by
  unfold refillStage
  split
  · split
    · simp only [List.length_append, createGuaranteed_length]
      omega
    · omega
  · omega

/-! ## Claim theorems -/

/-! The four filter boundary cases of the specification, evaluated on
concrete records. -/

theorem filter_boundary_sample_pattern : isSample (mkQ (r"Sample easy question #3") [] (r"x") (r"y") (r"easy")) = true := by decide

theorem filter_boundary_real_question : isSample (mkQ (r"What is the capital of France?") [ r"Paris", r"London", r"Berlin", r"Madrid" ] (r"Paris") (r"Geography") (r"easy")) = false := by decide

theorem filter_boundary_token_count : isSample (mkQ (r"Too short") [] (r"x") (r"y") (r"easy")) = true := by decide

theorem filter_boundary_missing_mark : isSample (mkQ (r"No question mark here.") [] (r"x") (r"y") (r"easy")) = true := by decide

/-- C5: the sample filter is idempotent and order-preserving — filtering an
already-filtered batch changes nothing, and the accepted records form a
sublist of the input (hence appear in their original relative order). -/
theorem filterSample_idempotent_and_order_preserving (xs : List Question) :
    filterSampleQuestions (filterSampleQuestions xs) = filterSampleQuestions xs
      ∧ List.Sublist (filterSampleQuestions xs) xs := by
  constructor
  · exact List.filter_eq_self.mpr (fun a ha => (List.mem_filter.mp ha).2)
  · exact List.filter_sublist xs

/-- C3 (counterexample): `UserHistory.save_history` does not re-raise a
write error — it logs it and returns normally, so the failure is silently
swallowed, contradicting the claim for this operation. -/
theorem save_history_swallows_write_error :
    historySaveHistory (Except.error (r"disk full")) = Except.ok ()
      ∧ (Except.ok () : Except String Unit) ≠ Except.error (r"disk full") := by
  refine ⟨rfl, ?_⟩
  intro h
  cases h

/-- C3 (amended): `CategoryQuestionManager.save_questions` and
`QuestionManager.save_questions` log a write error and re-raise it to the
immediate caller; `UserHistory.save_history` only logs it and returns
normally. -/
theorem save_write_error_propagation (e : String) :
    categorySaveQuestions (Except.error e) = Except.error e
    ∧ managerSaveQuestions (Except.error e) = Except.error e
    ∧ historySaveHistory (Except.error e) = Except.ok () :=
  ⟨rfl, rfl, rfl⟩

/-- C7: any network error, malformed or undecodable response, or a
non-zero `response_code` makes `_fetch_questions_from_api` return the
empty list; the `except` clauses catch every raised error, so the function
never raises to its caller. -/
theorem fetch_api_failure_returns_empty (unescape : String → String)
    (shuffles : Nat → List String → List String) (category difficulty : String)
    (n : Nat) (code : Nat) (results : List ApiResult) (hc : code ≠ 0) :
    fetchQuestionsFromApi unescape shuffles category difficulty n ApiOutcome.netError = []
    ∧ fetchQuestionsFromApi unescape shuffles category difficulty n ApiOutcome.otherError = []
    ∧ fetchQuestionsFromApi unescape shuffles category difficulty n
        (ApiOutcome.response code results) = [] := by
  refine ⟨rfl, rfl, ?_⟩
  have hbody : fetchApiBody unescape shuffles category difficulty
      (ApiOutcome.response code results) = Except.ok [] := by
    simp only [fetchApiBody]
    rw [if_neg (fun h => hc h.1)]
  simp only [fetchQuestionsFromApi, hbody]

/-- Witness for C7 at a concrete failed outcome. -/
theorem fetch_api_failure_returns_empty_witness :
    fetchQuestionsFromApi id (fun _ l => l) (r"Science") (r"easy") 5 ApiOutcome.netError = []
    ∧ fetchQuestionsFromApi id (fun _ l => l) (r"Science") (r"easy") 5 ApiOutcome.otherError = []
    ∧ fetchQuestionsFromApi id (fun _ l => l) (r"Science") (r"easy") 5
        (ApiOutcome.response 1 []) = [] :=
  fetch_api_failure_returns_empty id (fun _ l => l) (r"Science") (r"easy") 5 1 [] (by decide)

/-- C1: for every category, difficulty and requested count `n ≥ 1` — and
every outcome of the model, API and sampling oracles — `generate_questions`
returns exactly `n` records: the guaranteed stage covers any remaining
deficit and the final list is truncated to `n`. -/
theorem generate_questions_exact_count (aiR : List Question)
    (apiFetch : Nat → List Question)
    (sampleGeo sampleFb sampleFb2 : List Question → Nat → List Question)
    (catIdx diffIdx catIdx2 diffIdx2 : Nat) (useFb modelReady : Bool)
    (category difficulty : String) (n : Nat) (hn : 1 ≤ n) :
    (generateQuestions aiR apiFetch sampleGeo sampleFb sampleFb2 catIdx diffIdx
      catIdx2 diffIdx2 useFb modelReady category difficulty n).length = n := by
  unfold generateQuestions
  rw [List.length_take]
  exact Nat.min_eq_left (refill_length_ge _ _ _ _ _)

/-- Witness for C1 at an unknown category and invalid difficulty. -/
theorem generate_questions_exact_count_witness :
    1 ≤ 5 ∧
      (generateQuestions [] (fun _ => []) (fun l k => l.take k) (fun l k => l.take k)
        (fun l k => l.take k) 0 0 0 0 true true (r"Astronomy") (r"extreme") 5).length = 5 :=
  ⟨by decide,
    generate_questions_exact_count [] (fun _ => []) (fun l k => l.take k) (fun l k => l.take k)
      (fun l k => l.take k) 0 0 0 0 true true (r"Astronomy") (r"extreme") 5 (by decide)⟩

/-- A successful dict lookup comes from an entry of the association list. -/
theorem dictFind_mem {α : Type} (d : List (String × α)) (k : String) (v : α)
    (h : dictFind d k = some v) : ∃ p, p ∈ d ∧ p.2 = v := by
  unfold dictFind at h
  cases hf : d.find? (fun e => decide (e.1 = k)) with
  | none => rw [hf] at h; cases h
  | some p =>
    rw [hf] at h
    exact ⟨p, List.mem_of_find?_eq_some hf, by simpa using h⟩

/-- Every record of the guaranteed table has exactly four options
containing the correct answer. -/
theorem guaranteedTable_ok :
    guaranteedTable.all (fun c => c.2.all (fun d => d.2.all
      (fun q => q.options.length == 4 && q.options.contains q.correct_answer))) = true := by
  decide

/-- C10: `_create_guaranteed_questions` returns exactly `count` records for
every category (including ones absent from its table), every difficulty and
every `count ≥ 0`; each record has exactly 4 options containing the correct
answer; and for an unknown category the result is exactly the requested
count of default questions cycled in order, with category and difficulty
overwritten. -/
theorem create_guaranteed_spec (category difficulty : String) (count : Nat) :
    (createGuaranteedQuestions category difficulty count).length = count
    ∧ (∀ q ∈ createGuaranteedQuestions category difficulty count,
        q.options.length = 4 ∧ q.correct_answer ∈ q.options)
    ∧ (dictFind guaranteedTable category = none →
        createGuaranteedQuestions category difficulty count =
          (List.range count).map (fun i =>
            { (defaultGuaranteed category difficulty).getD
                (i % (defaultGuaranteed category difficulty).length) default with
              category := category, difficulty := difficulty })) := by
  refine ⟨createGuaranteed_length _ _ _, ?_, ?_⟩
  · intro q hq
    simp only [createGuaranteedQuestions] at hq
    rcases List.mem_append.mp hq with hbase | hdef
    · cases hfind : dictFind guaranteedTable category with
      | none => simp only [hfind] at hbase; cases hbase
      | some sub =>
        simp only [hfind] at hbase
        cases hfind2 : dictFind sub difficulty with
        | none => simp only [hfind2] at hbase; cases hbase
        | some available =>
          simp only [hfind2] at hbase
          have hq2 : q ∈ available := List.take_subset _ _ hbase
          obtain ⟨p, hp, hpv⟩ := dictFind_mem _ _ _ hfind
          obtain ⟨p2, hp2, hp2v⟩ := dictFind_mem _ _ _ hfind2
          have h1 := List.all_eq_true.mp guaranteedTable_ok p hp
          have h2 := List.all_eq_true.mp h1 p2 (by rw [hpv]; exact hp2)
          have h3 := List.all_eq_true.mp h2 q (by rw [hp2v]; exact hq2)
          simpa using h3
    · rcases List.mem_map.mp hdef with ⟨i, _, rfl⟩
      have hlen3 : (defaultGuaranteed category difficulty).length = 3 := rfl
      have h3 : i % (defaultGuaranteed category difficulty).length = 0
          ∨ i % (defaultGuaranteed category difficulty).length = 1
          ∨ i % (defaultGuaranteed category difficulty).length = 2 := by
        rw [hlen3]; omega
      rcases h3 with h3 | h3 | h3 <;> rw [h3] <;>
        exact ⟨rfl, by simp [defaultGuaranteed, mkQ]⟩
  · intro hnone
    simp only [createGuaranteedQuestions]
    rw [hnone]
    simp

/-- Witness for C10 at the unknown category `Music`. -/
theorem create_guaranteed_spec_witness :
    dictFind guaranteedTable (r"Music") = none
    ∧ (createGuaranteedQuestions (r"Music") (r"easy") 5).length = 5
    ∧ createGuaranteedQuestions (r"Music") (r"easy") 5 =
        (List.range 5).map (fun i =>
          { (defaultGuaranteed (r"Music") (r"easy")).getD
              (i % (defaultGuaranteed (r"Music") (r"easy")).length) default with
            category := (r"Music"), difficulty := (r"easy") }) :=
  ⟨by decide, (create_guaranteed_spec (r"Music") (r"easy") 5).1,
    (create_guaranteed_spec (r"Music") (r"easy") 5).2.2 (by decide)⟩

/-- C8: `CategoryQuestionManager.add_questions` appends a record whose
lower-cased difficulty is not a bucket key (e.g. `EXTREME`) to the `medium`
bucket, appends records with a valid difficulty to the matching bucket, and
persists the updated bank afterwards through `save_questions`. -/
theorem add_questions_difficulty_normalization (e m h : List Question)
    (q : Question) (w : Except String Unit) :
    addOneQuestion [(r"easy", e), (r"medium", m), (r"hard", h)] q =
      (if pyLower q.difficulty = r"easy" then
        [(r"easy", e ++ [q]), (r"medium", m), (r"hard", h)]
       else if pyLower q.difficulty = r"hard" then
        [(r"easy", e), (r"medium", m), (r"hard", h ++ [q])]
       else [(r"easy", e), (r"medium", m ++ [q]), (r"hard", h)])
    ∧ addQuestionsAndSave [(r"easy", e), (r"medium", m), (r"hard", h)] [q] w =
        (addOneQuestion [(r"easy", e), (r"medium", m), (r"hard", h)] q,
          categorySaveQuestions w) := by
  refine ⟨?_, rfl⟩
  by_cases h1 : pyLower q.difficulty = r"easy"
  · simp [addOneQuestion, dictFind, h1]
  · by_cases h2 : pyLower q.difficulty = r"medium"
    · simp [addOneQuestion, dictFind, h1, h2]
    · by_cases h3 : pyLower q.difficulty = r"hard"
      · simp [addOneQuestion, dictFind, h1, h2, h3]
      · have h1' : ¬(r"easy") = pyLower q.difficulty := fun hh => h1 hh.symm
        have h2' : ¬(r"medium") = pyLower q.difficulty := fun hh => h2 hh.symm
        have h3' : ¬(r"hard") = pyLower q.difficulty := fun hh => h3 hh.symm
        simp [addOneQuestion, dictFind, h1, h2, h3, h1', h2', h3']

/-- Inserting into the seen-set puts the element in. -/
theorem setAdd_mem_self (s : List String) (x : String) : x ∈ setAdd s x := by
  unfold setAdd
  split
  · assumption
  · simp

/-- Inserting into the seen-set keeps existing elements. -/
theorem setAdd_mem_mono (s : List String) (x y : String) (hy : y ∈ s) :
    y ∈ setAdd s x := by
  unfold setAdd
  split
  · exact hy
  · simp [hy]

/-- Folding the hash insertions keeps existing elements. -/
theorem foldl_setAdd_mem_of_mem (qs : List Question) (s : List String) (y : String)
    (hy : y ∈ s) : y ∈ qs.foldl (fun s q => setAdd s (hashQuestion q)) s := by
  induction qs generalizing s with
  | nil => exact hy
  | cons q rest ih => exact ih _ (setAdd_mem_mono _ _ _ hy)

/-- After folding the hash insertions, every listed question's hash is in
the set. -/
theorem foldl_setAdd_mem (qs : List Question) (s : List String) (q : Question)
    (hq : q ∈ qs) : hashQuestion q ∈ qs.foldl (fun s q => setAdd s (hashQuestion q)) s := by
  induction qs generalizing s with
  | nil => cases hq
  | cons q0 rest ih =>
    rcases List.mem_cons.mp hq with hq | hq
    · subst hq
      exact foldl_setAdd_mem_of_mem rest _ _ (setAdd_mem_self _ _)
    · exact ih _ hq

/-- After `ensureCategory` the category is present. -/
theorem ensureCategory_found (seen : List (String × List String)) (category : String) :
    ∃ s, dictFind (ensureCategory seen category) category = some s := by
  unfold ensureCategory
  split
  · rename_i hs
    rcases Option.isSome_iff_exists.mp hs with ⟨s, hsv⟩
    exact ⟨s, hsv⟩
  · rename_i hs
    have hnone : dictFind seen category = none := by
      cases hf : dictFind seen category with
      | none => rfl
      | some s => rw [hf] at hs; simp at hs
    unfold dictFind at hnone ⊢
    rcases Option.map_eq_none'.mp hnone with hfn
    rw [List.find?_append, hfn]
    simp

/-- Rewriting the category's entry through `List.map` is seen by
`dictFind`. -/
theorem dictFind_map_update (l : List (String × List String)) (category : String)
    (f : List String → List String) (s : List String)
    (h : dictFind l category = some s) :
    dictFind (l.map (fun e => if e.1 = category then (e.1, f e.2) else e)) category
      = some (f s) := by
  induction l with
  | nil => simp [dictFind] at h
  | cons e rest ih =>
    by_cases hc : e.1 = category
    · unfold dictFind at h
      rw [List.find?_cons_of_pos _ (by simpa using hc)] at h
      simp only [Option.map_some'] at h
      simp only [List.map_cons, hc, if_pos rfl]
      unfold dictFind
      rw [List.find?_cons_of_pos _ (by simpa using hc)]
      simp [Option.some.inj h]
    · unfold dictFind at h
      rw [List.find?_cons_of_neg _ (by simpa using hc)] at h
      have := ih h
      simp only [List.map_cons, if_neg hc]
      unfold dictFind at this ⊢
      rw [List.find?_cons_of_neg _ (by simpa using hc)]
      exact this

/-- C4: after `add_seen_questions(category, records)`, a
`filter_unseen_questions(category, records)` call on the exact same records
returns the empty list — every record's normalized text is now in the
seen-set. -/
theorem mark_seen_then_unseen_empty (seen : List (String × List String))
    (category : String) (qs : List Question) :
    filterUnseenQuestions (addSeenQuestions seen category qs) category qs = [] := by
  obtain ⟨s0, hs0⟩ := ensureCategory_found seen category
  have hfind : dictFind (addSeenQuestions seen category qs) category
      = some (qs.foldl (fun s q => setAdd s (hashQuestion q)) s0) := by
    unfold addSeenQuestions
    exact dictFind_map_update _ _
      (fun t => qs.foldl (fun s q => setAdd s (hashQuestion q)) t) _ hs0
  unfold filterUnseenQuestions
  rw [hfind]
  refine List.filter_eq_nil_iff.mpr ?_
  intro q hq
  simp [foldl_setAdd_mem qs s0 q hq]

/-- The last character of a list is one of its elements. -/
theorem getLast?_mem_of_eq_some (l : List Char) (c : Char)
    (h : l.getLast? = some c) : c ∈ l := by
  induction l with
  | nil => cases h
  | cons a rest ih =>
    cases rest with
    | nil =>
      simp only [List.getLast?_singleton, Option.some.injEq] at h
      simp [h]
    | cons b t =>
      rw [List.getLast?_cons_cons] at h
      exact List.mem_cons_of_mem a (ih h)

/-- A text ending in a question mark contains one. -/
theorem endsWithQM_implies_containsQM (s : String) (h : endsWithQM s = true) :
    containsQM s = true := by
  unfold endsWithQM at h
  unfold containsQM
  have hlast : s.data.getLast? = some '?' := by
    cases hf : s.data.getLast? with
    | none => rw [hf] at h; cases h
    | some c =>
      rw [hf] at h
      simp at h
      rw [h]
  have hm : '?' ∈ s.data := getLast?_mem_of_eq_some _ _ hlast
  simpa using hm

/-- C6: a record whose question text has fewer than 4 whitespace-separated
tokens, or whose question text contains no question mark anywhere, is
classified as a sample and excluded from `_filter_sample_questions`'
output. -/
theorem short_or_no_question_mark_rejected (q : Question) (qs : List Question)
    (h : countWords (pyLower q.question).data < 4
      ∨ containsQM (pyLower q.question) = false) :
    isSample q = true ∧ q ∉ filterSampleQuestions qs := by
  have hs : isSample q = true := by
    rcases h with h | h
    · simp [isSample, h]
    · have he : endsWithQM (pyLower q.question) = false := by
        cases hE : endsWithQM (pyLower q.question) with
        | false => rfl
        | true =>
          rw [endsWithQM_implies_containsQM _ hE] at h
          cases h
      simp [isSample, h, he]
  refine ⟨hs, ?_⟩
  intro hmem
  have hkeep := (List.mem_filter.mp hmem).2
  rw [hs] at hkeep
  cases hkeep

/-- Witness for C6 at the three-token record. -/
theorem short_or_no_question_mark_rejected_witness :
    (countWords (pyLower tooShortQuestion.question).data < 4
      ∨ containsQM (pyLower tooShortQuestion.question) = false)
    ∧ isSample tooShortQuestion = true
    ∧ tooShortQuestion ∉ filterSampleQuestions [tooShortQuestion] :=
  ⟨Or.inl (by decide),
    (short_or_no_question_mark_rejected tooShortQuestion [tooShortQuestion]
      (Or.inl (by decide))).1,
    (short_or_no_question_mark_rejected tooShortQuestion [tooShortQuestion]
      (Or.inl (by decide))).2⟩

/-- Padding options keeps existing entries. -/
theorem mem_padOptionsLoop (fuel : Nat) (l : List String) (x : String)
    (hx : x ∈ l) : x ∈ padOptionsLoop fuel l := by
  induction fuel generalizing l with
  | zero => exact hx
  | succ f ih =>
    unfold padOptionsLoop
    split
    · exact ih _ (by simp [hx])
    · exact hx

/-- Padding options keeps existing entries. -/
theorem mem_padOptions (l : List String) (x : String) (hx : x ∈ l) :
    x ∈ padOptions l :=
  mem_padOptionsLoop 4 l x hx

/-- Every record appended by the per-attempt validation/repair loop of
`_generate_ai_questions` carries its correct answer inside its options:
either the answer was already an option, or the repair put it at index 0;
padding and shuffling keep membership. -/
theorem processGenerated_invariant (shuffles : Nat → List String → List String)
    (hsh : ∀ k l, List.Perm (shuffles k l) l)
    (rs : List RawQuestion) (acc : List Question) (k : Nat)
    (hacc : ∀ q ∈ acc, q.correct_answer ∈ q.options) :
    ∀ q ∈ (processGenerated shuffles rs acc k).1, q.correct_answer ∈ q.options := by
  induction rs generalizing acc k with
  | nil => exact hacc
  | cons rq rest ih =>
    unfold processGenerated
    split
    · rename_i hkeys
      dsimp only
      split
      · rename_i hmem
        refine ih _ _ ?_
        intro q hq
        rcases List.mem_append.mp hq with hq | hq
        · exact hacc q hq
        · simp only [List.mem_singleton] at hq
          subst hq
          exact ((hsh k _).mem_iff).mpr (mem_padOptions _ _ hmem)
      · rename_i hmem
        cases hopts : rq.roptions.getD [] with
        | nil => simpa [hopts] using hacc
        | cons o tl =>
          simp only [hopts]
          refine ih _ _ ?_
          intro q hq
          rcases List.mem_append.mp hq with hq | hq
          · exact hacc q hq
          · simp only [List.mem_singleton] at hq
            subst hq
            exact ((hsh k _).mem_iff).mpr (mem_padOptions _ _ (by simp [mkQ]))
    · exact ih _ _ hacc

/-- The attempt loop of `_generate_ai_questions` preserves the
answer-in-options invariant of its accumulator. -/
theorem aiAttemptLoop_invariant (shuffles : Nat → List String → List String)
    (att : Nat → GenAttempt) (hsh : ∀ k l, List.Perm (shuffles k l) l)
    (rem a : Nat) (acc : List Question) (k : Nat)
    (hacc : ∀ q ∈ acc, q.correct_answer ∈ q.options) :
    ∀ q ∈ aiAttemptLoop shuffles att rem a acc k, q.correct_answer ∈ q.options := by
  induction rem generalizing a acc k with
  | zero => simp [aiAttemptLoop]
  | succ rem ih =>
    unfold aiAttemptLoop
    cases att a with
    | parsed rs =>
      dsimp only
      split
      · exact ih _ _ _ (processGenerated_invariant shuffles hsh rs acc k hacc)
      · split
        · exact ih _ _ _ (processGenerated_invariant shuffles hsh rs acc k hacc)
        · exact processGenerated_invariant shuffles hsh rs acc k hacc
    | genFail => exact ih _ _ _ hacc
    | noJson => exact ih _ _ _ hacc
    | badJson => exact ih _ _ _ hacc

/-- C2 (amended): for every outcome of the model attempts and every
possible shuffle, each record returned by `_generate_ai_questions`
satisfies `correct_answer ∈ options`; the repair substitutes the correct
answer into `options[0]` at repair time, before padding and shuffling. -/
theorem ai_generated_answer_in_options (modelReady : Bool)
    (shuffles : Nat → List String → List String) (att : Nat → GenAttempt)
    (hsh : ∀ k l, List.Perm (shuffles k l) l) :
    ∀ q ∈ aiGenerateQuestions modelReady shuffles att,
      q.correct_answer ∈ q.options := by
  unfold aiGenerateQuestions
  split
  · exact aiAttemptLoop_invariant shuffles att hsh 3 1 [] 0 (by simp)
  · simp

/-- C2 (counterexample): the source record violates the invariant, the
repair writes the correct answer into `options[0]`, but the subsequent
`random.shuffle` (here: a reversal, one of its possible outcomes) moves it
away, so the record is returned with `options[0] ≠ correct_answer` —
the claim's `options[0] == correct_answer` does not hold at return time
(membership does). -/
theorem ai_repair_not_at_index_zero_after_shuffle :
    ((rawRepairExample.roptions.getD []).contains
        (rawRepairExample.ranswer.getD (r"")) = false)
    ∧ aiGenerateQuestions true (fun _ l => l.reverse)
        (fun _ => GenAttempt.parsed [rawRepairExample])
        = [ mkQ (r"Which answer is the right one here?")
              [ r"D", r"C", r"B", r"X" ] (r"X") (r"Science") (r"easy") ]
    ∧ ((r"D") : String) ≠ (r"X") := by
  refine ⟨by decide, by decide, by decide⟩

/-- Witness for C2 (amended) at a concrete run: an identity shuffle, one
attempt delivering the repaired record, whose answer is among its
options. -/
theorem ai_generated_answer_in_options_witness :
    (mkQ (r"Which answer is the right one here?") [ r"X", r"B", r"C", r"D" ]
        (r"X") (r"Science") (r"easy")).correct_answer
      ∈ (mkQ (r"Which answer is the right one here?") [ r"X", r"B", r"C", r"D" ]
          (r"X") (r"Science") (r"easy")).options :=
  ai_generated_answer_in_options true (fun _ l => l)
    (fun _ => GenAttempt.parsed [rawRepairExample])
    (fun _ l => List.Perm.refl l)
    (mkQ (r"Which answer is the right one here?") [ r"X", r"B", r"C", r"D" ]
      (r"X") (r"Science") (r"easy"))
    (by decide)

/-- Mapping preserves `Nodup` along a sub-permutation. -/
theorem nodup_map_of_subperm (l₁ l₂ : List Question) (f : Question → String)
    (h : List.Subperm l₁ l₂) (hn : (l₂.map f).Nodup) : (l₁.map f).Nodup := by
  obtain ⟨t, hperm, hsubl⟩ := h
  exact ((hperm.map f).nodup_iff).mp (hn.sublist (hsubl.map f))

/-- Every question of the Science/easy fallback bank passes the sample
filter. -/
theorem scienceEasyFallback_passes_filter :
    scienceEasyFallback.all (fun q => !(isSample q)) = true := by
  decide

/-- The Science/easy fallback bank has pairwise distinct question texts. -/
theorem scienceEasyFallback_nodup_texts :
    (scienceEasyFallback.map (fun q => q.question)).Nodup := by
  decide

/-- C9: with the generative model idle (it is only consulted for Geography)
and the API returning empty, `generate_questions("Science", "easy", 5)`
returns exactly 5 records that all pass the sample filter and have pairwise
distinct question texts, for every outcome of the random sample drawn from
the Science/easy fallback bank (`random.sample` returns 5 distinct elements
of the bank, i.e. a length-5 sub-permutation). -/
theorem offline_science_easy_returns_five_good (apiFetch : Nat → List Question)
    (sampleGeo sampleFb sampleFb2 : List Question → Nat → List Question)
    (catIdx diffIdx catIdx2 diffIdx2 : Nat) (useFb modelReady : Bool)
    (hapi : apiFetch 5 = [])
    (hlen : (sampleFb scienceEasyFallback 5).length = 5)
    (hsub : List.Subperm (sampleFb scienceEasyFallback 5) scienceEasyFallback) :
    (generateQuestions [] apiFetch sampleGeo sampleFb sampleFb2 catIdx diffIdx catIdx2
        diffIdx2 useFb modelReady (r"Science") (r"easy") 5).length = 5
    ∧ (∀ q ∈ generateQuestions [] apiFetch sampleGeo sampleFb sampleFb2 catIdx diffIdx
        catIdx2 diffIdx2 useFb modelReady (r"Science") (r"easy") 5, isSample q = false)
    ∧ ((generateQuestions [] apiFetch sampleGeo sampleFb sampleFb2 catIdx diffIdx catIdx2
        diffIdx2 useFb modelReady (r"Science") (r"easy") 5).map (fun q => q.question)).Nodup := by
  have hst1 : stage1 [] useFb modelReady (r"Science") = [] := by
    unfold stage1
    rw [if_neg (by decide)]
  have hst2 : stage2 apiFetch 5 [] = [] := by
    unfold stage2
    rw [if_pos (by decide)]
    simpa using hapi
  have hst3 : stage3 sampleGeo (r"Science") (r"easy") 5 [] = [] := by
    unfold stage3
    rw [if_neg (by decide)]
  have hst4 : stage4 sampleFb catIdx diffIdx (r"Science") (r"easy") 5 []
      = generateFallbackQuestions sampleFb catIdx diffIdx (r"Science") (r"easy") 5 := by
    unfold stage4
    rw [if_pos (by decide)]
    simp
  have hgf : generateFallbackQuestions sampleFb catIdx diffIdx (r"Science") (r"easy") 5
      = sampleFb scienceEasyFallback 5 := rfl
  have hacc : accumulateStages [] apiFetch sampleGeo sampleFb catIdx diffIdx useFb
      modelReady (r"Science") (r"easy") 5 = sampleFb scienceEasyFallback 5 := by
    unfold accumulateStages
    rw [hst1, hst2, hst3, hst4, hgf]
  have hpass : ∀ q ∈ sampleFb scienceEasyFallback 5, isSample q = false := by
    intro q hq
    have := List.all_eq_true.mp scienceEasyFallback_passes_filter q (hsub.subset hq)
    simpa using this
  have hfilter : filterSampleQuestions (sampleFb scienceEasyFallback 5)
      = sampleFb scienceEasyFallback 5 :=
    List.filter_eq_self.mpr (fun q hq => by simp [hpass q hq])
  have hrefill : refillStage (r"Science") (r"easy") 5 (sampleFb scienceEasyFallback 5)
      (fun needed => filterSampleQuestions (generateFallbackQuestions sampleFb2 catIdx2
        diffIdx2 (r"Science") (r"easy") (needed * 3)))
      = sampleFb scienceEasyFallback 5 := by
    unfold refillStage
    rw [if_neg (by rw [hlen]; omega)]
  have hG : generateQuestions [] apiFetch sampleGeo sampleFb sampleFb2 catIdx diffIdx
      catIdx2 diffIdx2 useFb modelReady (r"Science") (r"easy") 5
      = sampleFb scienceEasyFallback 5 := by
    unfold generateQuestions
    rw [hacc, hfilter, hrefill]
    exact List.take_of_length_le (le_of_eq hlen)
  refine ⟨by rw [hG]; exact hlen, ?_, ?_⟩
  · intro q hq
    rw [hG] at hq
    exact hpass q hq
  · rw [hG]
    exact nodup_map_of_subperm _ _ _ hsub scienceEasyFallback_nodup_texts

/-- Witness for C9: the sample takes the first five bank questions. -/
theorem offline_science_easy_returns_five_good_witness :
    (generateQuestions [] (fun _ => []) (fun l k => l.take k) (fun l k => l.take k)
        (fun l k => l.take k) 0 0 0 0 true true (r"Science") (r"easy") 5).length = 5
    ∧ (∀ q ∈ generateQuestions [] (fun _ => []) (fun l k => l.take k) (fun l k => l.take k)
        (fun l k => l.take k) 0 0 0 0 true true (r"Science") (r"easy") 5, isSample q = false)
    ∧ ((generateQuestions [] (fun _ => []) (fun l k => l.take k) (fun l k => l.take k)
        (fun l k => l.take k) 0 0 0 0 true true (r"Science") (r"easy") 5).map
          (fun q => q.question)).Nodup :=
  offline_science_easy_returns_five_good (fun _ => []) (fun l k => l.take k)
    (fun l k => l.take k) (fun l k => l.take k) 0 0 0 0 true true rfl
    (by decide) ((List.take_sublist 5 scienceEasyFallback).subperm)
